import Mathlib

/-!
Verification development for the bevy_erm_sqlite marshaling core.

The Rust sources (src/plugin.rs, src/value_to_sql_wrapper.rs) are shallowly
embedded below: the DDL generator `get_table_sql`, the write-path conversion
`to_sql` (ValueWrapper), the read-path row materialization of
`SqliteDatabase::query`, and the control flow of `open`, `execute`,
`query_scalar`, `create_table` and `insert`.  The table/column metadata types
come from the consumed bevy_erm interface (spec section 6); machine integers
are modelled as Nat/Int with explicit wrapping where the source casts, and
panicking branches (`panic!`, `todo!`, `unwrap` on `Err`) are modelled as
explicit abort outcomes.
-/

namespace BevyErmSqlite

/-- SQL column type descriptor, mirroring the bevy_erm `SqlType` enum exactly
as the source dispatches on it (variants None, Integer(bits, not_null),
UnsingedInteger(bits, not_null), Float(bits, not_null), Text, Date, Time,
DateTime, Blob, Boolean, One2One, Many2Many; the relationship variants drop
the type-id payload, which the source never reads). -/
inductive SqlType
  | none
  | integer (bits : Nat) (notNull : Bool)
  | unsignedInteger (bits : Nat) (notNull : Bool)
  | float (bits : Nat) (notNull : Bool)
  | text (notNull : Bool)
  | date (notNull : Bool)
  | time (notNull : Bool)
  | dateTime (notNull : Bool)
  | blob (notNull : Bool)
  | boolean (notNull : Bool)
  | one2One (notNull : Bool)
  | many2Many (notNull : Bool)
  deriving DecidableEq

/-- Declared runtime (Rust) type of a struct field, as dispatched on by
ValueWrapper::to_sql and by the blob branch of SqliteDatabase::query. -/
inductive RustType
  | u8T | u16T | u32T | u64T
  | i8T | i16T | i32T | i64T
  | f32T | f64T
  | stringT | strT
  | vec2 | vec3 | vec4
  | uvec2 | uvec3 | uvec4
  | ivec2 | ivec3 | ivec4
  | quat | srgba
  | boolT
  deriving DecidableEq

/-- One field-to-column mapping of the consumed bevy_erm ColumnDefinition:
source field name, SQL column name, SQL type, declaration order, key flag,
optional maximum length, and the field's declared runtime type. -/
structure ColumnDefinition where
  rust_name : String
  sql_name : String
  sql_type : SqlType
  order : Nat
  key : Bool
  max_length : Option Nat
  ty : RustType
  deriving DecidableEq

/-- Table metadata: SQL table name plus the column definitions (the source's
`fields` hash map, carried here as a list of its values). -/
structure TableDefinition where
  sql_name : String
  fields : List ColumnDefinition
  deriving DecidableEq

/-- Conditional " NOT NULL" suffix (the repeated `if not_null` pushes in
get_table_sql). -/
def notNullSql (nn : Bool) : String :=
  if nn then " NOT NULL" else ""

/-- One column clause of the generated CREATE TABLE statement: the per-variant
match inside SqliteDatabase::get_table_sql, transcribed branch by branch.
`Option.none` models the panicking todo branches (SqlType::None, One2One,
Many2Many).  Note the UnsignedInteger branch: the source interpolates the
whole clause accumulated so far (`{column}`) into the CHECK constraint, not
the bare column name. -/
def columnClause (c : ColumnDefinition) : Option String :=
  let name := c.sql_name
  match c.sql_type with
  | SqlType.none => Option.none
  | SqlType.integer _ nn =>
    if c.key then some (name ++ " INTEGER PRIMARY KEY AUTOINCREMENT")
    else some (name ++ " INTEGER" ++ notNullSql nn)
  | SqlType.unsignedInteger _ nn =>
    let column := name ++ " INTEGER" ++ notNullSql nn
    some (column ++ " CHECK(" ++ column ++ " >= 0)")
  | SqlType.float _ nn => some (name ++ " REAL" ++ notNullSql nn)
  | SqlType.text nn =>
    match c.max_length with
    | some n => some (name ++ " VARCHAR(" ++ toString n ++ ")" ++ notNullSql nn)
    | Option.none => some (name ++ " TEXT" ++ notNullSql nn)
  | SqlType.date nn => some (name ++ " TEXT" ++ notNullSql nn)
  | SqlType.time nn => some (name ++ " REAL" ++ notNullSql nn)
  | SqlType.dateTime nn => some (name ++ " TEXT" ++ notNullSql nn)
  | SqlType.blob nn => some (name ++ " BLOB" ++ notNullSql nn)
  | SqlType.boolean nn =>
    some (name ++ " INTEGER" ++ notNullSql nn ++
      " CHECK(" ++ name ++ " >= 0 AND " ++ name ++ " < 2)")
  | SqlType.one2One _ => Option.none
  | SqlType.many2Many _ => Option.none

/-- Insertion step of the stable sort by declaration order (the source's
`sorted.sort_by(|a, b| a.order.cmp(&b.order))`). -/
def insertByOrder (c : ColumnDefinition) : List ColumnDefinition → List ColumnDefinition
  | [] => [c]
  | d :: ds => if c.order < d.order then c :: d :: ds else d :: insertByOrder c ds

/-- Sort the column definitions ascending by declaration order. -/
def sortByOrder (l : List ColumnDefinition) : List ColumnDefinition :=
  l.foldr insertByOrder []

/-- Collect the results of a fallible map, failing if any element fails (the
source builds a Vec and would panic inside the loop; abort propagates). -/
def optionMapM {α β : Type} (f : α → Option β) : List α → Option (List β)
  | [] => some []
  | a :: as =>
    match f a, optionMapM f as with
    | some b, some bs => some (b :: bs)
    | _, _ => Option.none

/-- DDL generator SqliteDatabase::get_table_sql: sort columns by declaration
order, render each clause, join with ",\n" (`columns.join(",\n")` in the
source), and wrap as CREATE TABLE '<name>'(<clauses>);. -/
def get_table_sql (table : TableDefinition) : Option String :=
  match optionMapM columnClause (sortByOrder table.fields) with
  | some columns =>
    some ("CREATE TABLE '" ++ table.sql_name ++ "'(" ++
      String.intercalate ",\n" columns ++ ");")
  | Option.none => Option.none

/-- Player.id column of the spec's concrete scenario: Integer(32, not-null),
primary key, declaration order 0. -/
def playerIdCol : ColumnDefinition :=
  { rust_name := "id", sql_name := "id", sql_type := SqlType.integer 32 true,
    order := 0, key := true, max_length := Option.none, ty := RustType.i32T }

/-- Player.name column: Text(not-null), order 1. -/
def playerNameCol : ColumnDefinition :=
  { rust_name := "name", sql_name := "name", sql_type := SqlType.text true,
    order := 1, key := false, max_length := Option.none, ty := RustType.stringT }

/-- Player.deaths column: Integer(32, not-null), order 2. -/
def playerDeathsCol : ColumnDefinition :=
  { rust_name := "deaths", sql_name := "deaths", sql_type := SqlType.integer 32 true,
    order := 2, key := false, max_length := Option.none, ty := RustType.i32T }

/-- Player.email column: Text(not-null), order 3. -/
def playerEmailCol : ColumnDefinition :=
  { rust_name := "email", sql_name := "email", sql_type := SqlType.text true,
    order := 3, key := false, max_length := Option.none, ty := RustType.stringT }

/-- The Player table of the spec's concrete scenario. -/
def playerTable : TableDefinition :=
  { sql_name := "Player",
    fields := [playerIdCol, playerNameCol, playerDeathsCol, playerEmailCol] }

/-- C1 counterexample: on the Player table the DDL generator does not return
the spec's exact string with clauses joined by bare commas; the source joins
the clauses with ",\n". -/
theorem c1_counterexample :
    get_table_sql playerTable ≠
      some "CREATE TABLE 'Player'(id INTEGER PRIMARY KEY AUTOINCREMENT,name TEXT NOT NULL,deaths INTEGER NOT NULL,email TEXT NOT NULL);" := by
  decide

/-- C1 (amended): on the Player table the DDL generator returns exactly the
spec's statement except that the column clauses are joined with a comma
followed by a newline, columns in ascending declaration order, wrapped as
CREATE TABLE '<name>'(<clauses>);. -/
theorem c1_theorem :
    get_table_sql playerTable =
      some "CREATE TABLE 'Player'(id INTEGER PRIMARY KEY AUTOINCREMENT,\nname TEXT NOT NULL,\ndeaths INTEGER NOT NULL,\nemail TEXT NOT NULL);" := by
  rfl

/-- A not-null UnsignedInteger(32) column named "age": the failing input for
claim C2. -/
def ageCol : ColumnDefinition :=
  { rust_name := "age", sql_name := "age", sql_type := SqlType.unsignedInteger 32 true,
    order := 0, key := false, max_length := Option.none, ty := RustType.u32T }

/-- C2 (code bug): for the not-null UnsignedInteger column "age" the source
emits the clause "age INTEGER NOT NULL CHECK(age INTEGER NOT NULL >= 0)" —
the format string interpolates the whole accumulated clause into the CHECK
instead of the bare column name (compare the Boolean branch, which uses the
name) — and not the clause the spec states, "age INTEGER NOT NULL
CHECK(age >= 0)". -/
theorem c2_theorem :
    columnClause ageCol = some "age INTEGER NOT NULL CHECK(age INTEGER NOT NULL >= 0)" ∧
    columnClause ageCol ≠ some "age INTEGER NOT NULL CHECK(age >= 0)" := by
  exact ⟨rfl, by decide⟩

/-- Modelled from the spec: the fixed byte layout produced by bevy_erm's
`into_blob` ("an opaque binary blob (the same fixed set of vector/quaternion
types, serialized to a fixed byte layout)", spec 4.3).  `into_blob` lives in
the external bevy_erm crate, so the encoded bytes are modelled symbolically:
one constructor per source type, injective per type.  Float components are
carried as rationals (no float arithmetic occurs; only exact widening and
exact decode of a value encoded by the matching type are ever used). -/
inductive Blob
  | bVec2 (x y : ℚ)
  | bVec3 (x y z : ℚ)
  | bVec4 (x y z w : ℚ)
  | bUVec2 (x y : Nat)
  | bUVec3 (x y z : Nat)
  | bUVec4 (x y z w : Nat)
  | bIVec2 (x y : Int)
  | bIVec3 (x y z : Int)
  | bIVec4 (x y z w : Int)
  | bQuat (x y z w : ℚ)
  | bSrgba (r g b a : ℚ)
  deriving DecidableEq

/-- Primitive SQL storage value (rusqlite's Value as this crate produces and
consumes it): a 64-bit integer, a 64-bit real (carried as an exact rational,
see Blob), UTF-8 text, or an opaque blob. -/
inductive SqlValue
  | integer (v : Int)
  | real (v : ℚ)
  | text (s : String)
  | blobV (b : Blob)
  deriving DecidableEq

/-- Runtime field value of one source-struct field, one constructor per
runtime type that the marshaling code dispatches on.  Integer payloads are
the mathematical value of the machine integer (width bounds are imposed as
hypotheses where they matter); `someV` represents an Option-wrapped value as
produced by the nullable read path. -/
inductive RustValue
  | u8V (v : Nat) | u16V (v : Nat) | u32V (v : Nat) | u64V (v : Nat)
  | i8V (v : Int) | i16V (v : Int) | i32V (v : Int) | i64V (v : Int)
  | f32V (v : ℚ) | f64V (v : ℚ)
  | stringV (s : String) | strV (s : String)
  | vec2V (x y : ℚ) | vec3V (x y z : ℚ) | vec4V (x y z w : ℚ)
  | uvec2V (x y : Nat) | uvec3V (x y z : Nat) | uvec4V (x y z w : Nat)
  | ivec2V (x y : Int) | ivec3V (x y z : Int) | ivec4V (x y z w : Int)
  | quatV (x y z w : ℚ) | srgbaV (r g b a : ℚ)
  | boolV (b : Bool)
  | someV (v : RustValue)
  deriving DecidableEq

/-- Outcome of ValueWrapper::to_sql: a storage value, or the panic at the end
of the dispatch chain ("Cannot convert type ..."). -/
inductive ToSqlOutcome
  | ok (s : SqlValue)
  | aborted (msg : String)
  deriving DecidableEq

/-- Semantics of Rust's `as i64` applied to a u64 value: reduce modulo 2^64,
then reinterpret the top bit as the sign. -/
def u64AsI64 (v : Nat) : Int :=
  if v % 2 ^ 64 < 2 ^ 63 then ((v % 2 ^ 64 : Nat) : Int)
  else ((v % 2 ^ 64 : Nat) : Int) - 2 ^ 64

/-- Write-path conversion ValueWrapper::to_sql, transcribed from the dispatch
chain in src/value_to_sql_wrapper.rs: u8/u16/u32 widen with `as i64`
(value-preserving on their ranges), u64 uses the wrapping `as i64` cast,
signed widths widen losslessly, floats widen to 64-bit reals, String and &str
become text, the vector/quaternion/color types serialize to blobs, and any
other runtime type (including bool and Option-wrapped values) falls through
to the final panic. -/
def to_sql : RustValue → ToSqlOutcome
  | RustValue.u8V v => ToSqlOutcome.ok (SqlValue.integer (v : Int))
  | RustValue.u16V v => ToSqlOutcome.ok (SqlValue.integer (v : Int))
  | RustValue.u32V v => ToSqlOutcome.ok (SqlValue.integer (v : Int))
  | RustValue.u64V v => ToSqlOutcome.ok (SqlValue.integer (u64AsI64 v))
  | RustValue.i8V v => ToSqlOutcome.ok (SqlValue.integer v)
  | RustValue.i16V v => ToSqlOutcome.ok (SqlValue.integer v)
  | RustValue.i32V v => ToSqlOutcome.ok (SqlValue.integer v)
  | RustValue.i64V v => ToSqlOutcome.ok (SqlValue.integer v)
  | RustValue.f32V v => ToSqlOutcome.ok (SqlValue.real v)
  | RustValue.f64V v => ToSqlOutcome.ok (SqlValue.real v)
  | RustValue.stringV s => ToSqlOutcome.ok (SqlValue.text s)
  | RustValue.strV s => ToSqlOutcome.ok (SqlValue.text s)
  | RustValue.vec2V x y => ToSqlOutcome.ok (SqlValue.blobV (Blob.bVec2 x y))
  | RustValue.vec3V x y z => ToSqlOutcome.ok (SqlValue.blobV (Blob.bVec3 x y z))
  | RustValue.vec4V x y z w => ToSqlOutcome.ok (SqlValue.blobV (Blob.bVec4 x y z w))
  | RustValue.uvec2V x y => ToSqlOutcome.ok (SqlValue.blobV (Blob.bUVec2 x y))
  | RustValue.uvec3V x y z => ToSqlOutcome.ok (SqlValue.blobV (Blob.bUVec3 x y z))
  | RustValue.uvec4V x y z w => ToSqlOutcome.ok (SqlValue.blobV (Blob.bUVec4 x y z w))
  | RustValue.ivec2V x y => ToSqlOutcome.ok (SqlValue.blobV (Blob.bIVec2 x y))
  | RustValue.ivec3V x y z => ToSqlOutcome.ok (SqlValue.blobV (Blob.bIVec3 x y z))
  | RustValue.ivec4V x y z w => ToSqlOutcome.ok (SqlValue.blobV (Blob.bIVec4 x y z w))
  | RustValue.quatV x y z w => ToSqlOutcome.ok (SqlValue.blobV (Blob.bQuat x y z w))
  | RustValue.srgbaV r g b a => ToSqlOutcome.ok (SqlValue.blobV (Blob.bSrgba r g b a))
  | RustValue.boolV _ => ToSqlOutcome.aborted "Cannot convert type"
  | RustValue.someV _ => ToSqlOutcome.aborted "Cannot convert type"

/-- Mathematical integer value of an integer-typed runtime field (none for
non-integer fields). -/
def mathIntValue : RustValue → Option Int
  | RustValue.u8V v => some (v : Int)
  | RustValue.u16V v => some (v : Int)
  | RustValue.u32V v => some (v : Int)
  | RustValue.u64V v => some (v : Int)
  | RustValue.i8V v => some v
  | RustValue.i16V v => some v
  | RustValue.i32V v => some v
  | RustValue.i64V v => some v
  | _ => Option.none

/-- Integer field values on which the widening is value-preserving: every
signed width within its machine range, u8/u16/u32 within their ranges, and
u64 strictly below 2^63. -/
def intWidening : RustValue → Bool
  | RustValue.u8V v => decide (v < 2 ^ 8)
  | RustValue.u16V v => decide (v < 2 ^ 16)
  | RustValue.u32V v => decide (v < 2 ^ 32)
  | RustValue.u64V v => decide (v < 2 ^ 63)
  | RustValue.i8V v => decide (-(2 ^ 7) ≤ v ∧ v < 2 ^ 7)
  | RustValue.i16V v => decide (-(2 ^ 15) ≤ v ∧ v < 2 ^ 15)
  | RustValue.i32V v => decide (-(2 ^ 31) ≤ v ∧ v < 2 ^ 31)
  | RustValue.i64V v => decide (-(2 ^ 63) ≤ v ∧ v < 2 ^ 63)
  | _ => false

/-- C6 counterexample: for the u64 field value 2^63 (above the signed 64-bit
maximum) the write-path conversion stores the integer -(2^63), which differs
from the original field value, so the widening is not lossless for every
representable u64 input. -/
theorem c6_counterexample :
    to_sql (RustValue.u64V (2 ^ 63)) = ToSqlOutcome.ok (SqlValue.integer (-(2 ^ 63))) ∧
    mathIntValue (RustValue.u64V (2 ^ 63)) = some ((2 : Int) ^ 63) ∧
    (-(2 ^ 63) : Int) ≠ (2 : Int) ^ 63 := by
  refine ⟨by decide, by decide, by decide⟩

/-- C6 (amended): for every signed integer field value within its machine
range and every unsigned field value below 2^63 (so all of u8/u16/u32, and
u64 up to the signed 64-bit maximum), to_sql produces a 64-bit integer
storage value equal to the original field value; u64 values at or above 2^63
wrap to a negative integer instead. -/
theorem c6_theorem (v : RustValue) (i : Int) (h : intWidening v = true)
    (hv : mathIntValue v = some i) :
    to_sql v = ToSqlOutcome.ok (SqlValue.integer i) := by
  cases v <;> simp only [intWidening, decide_eq_true_eq] at h <;>
    simp only [mathIntValue, Option.some.injEq, reduceCtorEq] at hv
  case u8V n => subst hv; rfl
  case u16V n => subst hv; rfl
  case u32V n => subst hv; rfl
  case u64V n =>
    subst hv
    simp only [to_sql, ToSqlOutcome.ok.injEq, SqlValue.integer.injEq, u64AsI64]
    have h1 : n % 2 ^ 64 = n := Nat.mod_eq_of_lt (lt_trans h (by norm_num))
    rw [h1, if_pos h]
  case i8V k => subst hv; rfl
  case i16V k => subst hv; rfl
  case i32V k => subst hv; rfl
  case i64V k => subst hv; rfl

/-- C6 witness: the amended theorem applied at the concrete u64 value 42. -/
theorem c6_witness :
    to_sql (RustValue.u64V 42) = ToSqlOutcome.ok (SqlValue.integer 42) :=
  c6_theorem (RustValue.u64V 42) 42 (by decide) (by decide)

/-- Outcome of reading one result column during row materialization: a value
inserted into the staging DynamicStruct, a silent skip (the blob branch with
an unhandled target type inserts nothing), or an abort (the get_unwrap /
panic / todo paths of SqliteDatabase::query). -/
inductive ReadOutcome
  | val (v : RustValue)
  | skip
  | aborted
  deriving DecidableEq

/-- Wrap for nullability: a not-null column inserts the plain value, a
nullable column inserts Some(value) (the `if not_null` pairs in query). -/
def wrapNN (nn : Bool) (v : RustValue) : ReadOutcome :=
  if nn then ReadOutcome.val v else ReadOutcome.val (RustValue.someV v)

/-- Read a signed integer of a sub-64-bit width: rusqlite converts the stored
64-bit integer with a range check and get_unwrap aborts when it fails or when
the stored value is not an integer. -/
def readSigned (lo hi : Int) (mk : Int → RustValue) (nn : Bool) (s : SqlValue) : ReadOutcome :=
  match s with
  | SqlValue.integer v =>
    if lo ≤ v ∧ v < hi then wrapNN nn (mk v) else ReadOutcome.aborted
  | _ => ReadOutcome.aborted

/-- Read a 64-bit signed integer: the stored integer is returned as is. -/
def readI64 (nn : Bool) (s : SqlValue) : ReadOutcome :=
  match s with
  | SqlValue.integer v => wrapNN nn (RustValue.i64V v)
  | _ => ReadOutcome.aborted

/-- Read an unsigned integer of a sub-64-bit width, with rusqlite's range
check. -/
def readUnsigned (hi : Int) (mk : Nat → RustValue) (nn : Bool) (s : SqlValue) : ReadOutcome :=
  match s with
  | SqlValue.integer v =>
    if 0 ≤ v ∧ v < hi then wrapNN nn (mk v.toNat) else ReadOutcome.aborted
  | _ => ReadOutcome.aborted

/-- Read a 64-bit unsigned integer: rusqlite's conversion from the stored
signed 64-bit integer fails exactly on negative values. -/
def readU64 (nn : Bool) (s : SqlValue) : ReadOutcome :=
  match s with
  | SqlValue.integer v =>
    if 0 ≤ v then wrapNN nn (RustValue.u64V v.toNat) else ReadOutcome.aborted
  | _ => ReadOutcome.aborted

/-- Read a float column: rusqlite accepts a stored real directly and also
widens a stored integer; the f32 narrowing of a value that was originally an
f32 is exact, which is the only case the sources exercise, so it is modelled
as the identity on the carried rational. -/
def readFloat (mk : ℚ → RustValue) (nn : Bool) (s : SqlValue) : ReadOutcome :=
  match s with
  | SqlValue.real q => wrapNN nn (mk q)
  | SqlValue.integer v => wrapNN nn (mk (v : ℚ))
  | _ => ReadOutcome.aborted

/-- Per-column dispatch of SqliteDatabase::query, transcribed from the match
on col.sql_type: width-checked integer reads, float reads, text, the blob
branch dispatching on the target field type (only Vec2/Vec3/Vec4 handled, no
else branch — anything else silently skips), boolean, and aborts for the
panicking branches (SqlType::None, bad widths, Date/Time/DateTime,
One2One/Many2Many).  A stored blob whose layout does not come from the
matching target type has no specified decode and is modelled as a failure. -/
def readColumnAux (st : SqlType) (ty : RustType) (s : SqlValue) : ReadOutcome :=
  match st with
  | SqlType.none => ReadOutcome.aborted
  | SqlType.integer bits nn =>
    if bits = 8 then readSigned (-(2 ^ 7)) (2 ^ 7) RustValue.i8V nn s
    else if bits = 16 then readSigned (-(2 ^ 15)) (2 ^ 15) RustValue.i16V nn s
    else if bits = 32 then readSigned (-(2 ^ 31)) (2 ^ 31) RustValue.i32V nn s
    else if bits = 64 then readI64 nn s
    else ReadOutcome.aborted
  | SqlType.unsignedInteger bits nn =>
    if bits = 8 then readUnsigned (2 ^ 8) RustValue.u8V nn s
    else if bits = 16 then readUnsigned (2 ^ 16) RustValue.u16V nn s
    else if bits = 32 then readUnsigned (2 ^ 32) RustValue.u32V nn s
    else if bits = 64 then readU64 nn s
    else ReadOutcome.aborted
  | SqlType.float bits nn =>
    if bits = 32 then readFloat RustValue.f32V nn s
    else if bits = 64 then readFloat RustValue.f64V nn s
    else ReadOutcome.aborted
  | SqlType.text nn =>
    match s with
    | SqlValue.text str => wrapNN nn (RustValue.stringV str)
    | _ => ReadOutcome.aborted
  | SqlType.date _ => ReadOutcome.aborted
  | SqlType.time _ => ReadOutcome.aborted
  | SqlType.dateTime _ => ReadOutcome.aborted
  | SqlType.blob nn =>
    match s with
    | SqlValue.blobV b =>
      if ty = RustType.vec2 then
        match b with
        | Blob.bVec2 x y => wrapNN nn (RustValue.vec2V x y)
        | _ => ReadOutcome.aborted
      else if ty = RustType.vec3 then
        match b with
        | Blob.bVec3 x y z => wrapNN nn (RustValue.vec3V x y z)
        | _ => ReadOutcome.aborted
      else if ty = RustType.vec4 then
        match b with
        | Blob.bVec4 x y z w => wrapNN nn (RustValue.vec4V x y z w)
        | _ => ReadOutcome.aborted
      else ReadOutcome.skip
    | _ => ReadOutcome.aborted
  | SqlType.boolean nn =>
    match s with
    | SqlValue.integer v => wrapNN nn (RustValue.boolV (v != 0))
    | _ => ReadOutcome.aborted
  | SqlType.one2One _ => ReadOutcome.aborted
  | SqlType.many2Many _ => ReadOutcome.aborted

/-- Read one result column against its ColumnDefinition. -/
def readColumn (c : ColumnDefinition) (s : SqlValue) : ReadOutcome :=
  readColumnAux c.sql_type c.ty s

/-- Modelled from the spec: bevy_erm's TableDefinition::get, "keyed by both
SQL and source field name" (spec section 2), looking the column up by either
name. -/
def tableGet (t : TableDefinition) (n : String) : Option ColumnDefinition :=
  t.fields.find? (fun c => c.sql_name == n || c.rust_name == n)

/-- A typed instance, as a source-field-name to field-value assignment. -/
abbrev Instance := List (String × RustValue)

/-- One untyped result row: column name to stored value. -/
abbrev Row := List (String × SqlValue)

/-- First binding of a field name in an assignment list. -/
def lookupField (inst : Instance) (n : String) : Option RustValue :=
  match inst.find? (fun p => p.1 == n) with
  | some p => some p.2
  | Option.none => Option.none

/-- Field declarations of the materialization target type: name, declared
runtime type, and the value a default-constructed instance carries. -/
structure FieldDecl where
  name : String
  ty : RustType
  dflt : RustValue
  deriving DecidableEq

/-- The staging loop of SqliteDatabase::query: walk the result columns, skip
columns with no table-definition entry (logged, not an error), skip columns
the blob branch leaves unhandled, collect read values, abort if any read
aborts. -/
def buildStaging (tbl : TableDefinition) : Row → Option (List (String × RustValue))
  | [] => some []
  | (n, s) :: rest =>
    match tableGet tbl n with
    | Option.none => buildStaging tbl rest
    | some c =>
      match readColumn c s with
      | ReadOutcome.aborted => Option.none
      | ReadOutcome.skip => buildStaging tbl rest
      | ReadOutcome.val v =>
        match buildStaging tbl rest with
        | some staging => some ((n, v) :: staging)
        | Option.none => Option.none

/-- Applying the staging DynamicStruct onto a default-constructed instance:
each declared field takes the staged value under its name when present,
otherwise its default. -/
def applyStaging (flds : List FieldDecl) (staging : List (String × RustValue)) : Instance :=
  flds.map (fun f =>
    (f.name,
      match lookupField staging f.name with
      | some v => v
      | Option.none => f.dflt))

/-- Row materialization of SqliteDatabase::query for one result row. -/
def materializeRow (tbl : TableDefinition) (flds : List FieldDecl) (row : Row) : Option Instance :=
  match buildStaging tbl row with
  | some staging => some (applyStaging flds staging)
  | Option.none => Option.none

/-- The non-key columns, in field order (the `if x.is_key() { continue; }`
loop of SqliteDatabase::insert). -/
def nonKeyColumns (tbl : TableDefinition) : List ColumnDefinition :=
  tbl.fields.filter (fun c => !c.key)

/-- The row stored by a successful insert: one ValueWrapper per non-key
column, each pulled through to_sql at bind time; a missing field (the unwrap
in ValueWrapper::build) or a failing conversion aborts. -/
def writeRow (tbl : TableDefinition) (inst : Instance) : Option Row :=
  optionMapM (fun c =>
    match lookupField inst c.rust_name with
    | some v =>
      match to_sql v with
      | ToSqlOutcome.ok s => some (c.sql_name, s)
      | ToSqlOutcome.aborted _ => Option.none
    | Option.none => Option.none) (nonKeyColumns tbl)

/-- Insert-then-query round trip: the engine is modelled as exact storage
(the uniquely selecting filter returns precisely the row the insert stored,
with the inserted columns), composed from the embedded write path and the
embedded materialization path. -/
def roundTrip (tbl : TableDefinition) (flds : List FieldDecl) (inst : Instance) : Option Instance :=
  match writeRow tbl inst with
  | some row => materializeRow tbl flds row
  | Option.none => Option.none

/-- A not-null Blob column whose target field type is a quaternion: the
failing input for claim C4. -/
def rotCol : ColumnDefinition :=
  { rust_name := "rot", sql_name := "rot", sql_type := SqlType.blob true,
    order := 0, key := false, max_length := Option.none, ty := RustType.quat }

/-- One-column table holding the quaternion blob column. -/
def rotTable : TableDefinition :=
  { sql_name := "Entity", fields := [rotCol] }

/-- Target type of the quaternion materialization example: a single field
"rot" with the identity quaternion as default. -/
def rotFields : List FieldDecl :=
  [{ name := "rot", ty := RustType.quat, dflt := RustValue.quatV 0 0 0 1 }]

/-- C4 (code bug): materializing a row whose Blob column targets a Quat field
— a type outside the Vec2/Vec3/Vec4 set the blob branch handles — succeeds
silently and leaves the field at its default value instead of failing with an
unsupported-type error: the blob dispatch has no else branch, so the stored
quaternion (1,2,3,4) is dropped and the result carries the default (0,0,0,1). -/
theorem c4_theorem :
    materializeRow rotTable rotFields [("rot", SqlValue.blobV (Blob.bQuat 1 2 3 4))] =
      some [("rot", RustValue.quatV 0 0 0 1)] := by
  rfl

/-- Key column of the round-trip counterexample table. -/
def scoreIdCol : ColumnDefinition :=
  { rust_name := "id", sql_name := "id", sql_type := SqlType.integer 32 true,
    order := 0, key := true, max_length := Option.none, ty := RustType.i32T }

/-- Non-key u64 column of the round-trip counterexample table. -/
def scoreCol : ColumnDefinition :=
  { rust_name := "score", sql_name := "score",
    sql_type := SqlType.unsignedInteger 64 true,
    order := 1, key := false, max_length := Option.none, ty := RustType.u64T }

/-- Two-column table: integer primary key plus a u64 score. -/
def scoreTable : TableDefinition :=
  { sql_name := "Score", fields := [scoreIdCol, scoreCol] }

/-- Field declarations of the Score target type. -/
def scoreFields : List FieldDecl :=
  [{ name := "id", ty := RustType.i32T, dflt := RustValue.i32V 0 },
   { name := "score", ty := RustType.u64T, dflt := RustValue.u64V 0 }]

/-- A fully populated Score instance whose u64 field holds 2^63, a supported
field type at insert time. -/
def scoreInst : Instance :=
  [("id", RustValue.i32V 0), ("score", RustValue.u64V (2 ^ 63))]

/-- C3 counterexample: for the Score instance with score = 2^63 — every field
of a supported type — the insert stores the wrapping cast -(2^63) and the
query's u64 read of that negative integer aborts, so the round trip returns
no instance at all, let alone one equal in every non-key field. -/
theorem c3_counterexample :
    roundTrip scoreTable scoreFields scoreInst = Option.none := by
  decide

/-- Field values whose write-read marshaling round trip is exact for a given
column: signed integers within their machine range on a matching not-null
Integer column, u8/u16/u32 within range and u64 below 2^63 on a matching
not-null UnsignedInteger column, floats on a matching not-null Float column,
String on a not-null Text column, and Vec2/Vec3/Vec4 on a not-null Blob
column whose target type matches. -/
def colFaithful (c : ColumnDefinition) (v : RustValue) : Bool :=
  match v with
  | RustValue.i8V k =>
    decide (c.sql_type = SqlType.integer 8 true) && decide (-(2 ^ 7) ≤ k ∧ k < 2 ^ 7)
  | RustValue.i16V k =>
    decide (c.sql_type = SqlType.integer 16 true) && decide (-(2 ^ 15) ≤ k ∧ k < 2 ^ 15)
  | RustValue.i32V k =>
    decide (c.sql_type = SqlType.integer 32 true) && decide (-(2 ^ 31) ≤ k ∧ k < 2 ^ 31)
  | RustValue.i64V _ => decide (c.sql_type = SqlType.integer 64 true)
  | RustValue.u8V n =>
    decide (c.sql_type = SqlType.unsignedInteger 8 true) && decide (n < 2 ^ 8)
  | RustValue.u16V n =>
    decide (c.sql_type = SqlType.unsignedInteger 16 true) && decide (n < 2 ^ 16)
  | RustValue.u32V n =>
    decide (c.sql_type = SqlType.unsignedInteger 32 true) && decide (n < 2 ^ 32)
  | RustValue.u64V n =>
    decide (c.sql_type = SqlType.unsignedInteger 64 true) && decide (n < 2 ^ 63)
  | RustValue.f32V _ => decide (c.sql_type = SqlType.float 32 true)
  | RustValue.f64V _ => decide (c.sql_type = SqlType.float 64 true)
  | RustValue.stringV _ => decide (c.sql_type = SqlType.text true)
  | RustValue.vec2V _ _ =>
    decide (c.sql_type = SqlType.blob true) && decide (c.ty = RustType.vec2)
  | RustValue.vec3V _ _ _ =>
    decide (c.sql_type = SqlType.blob true) && decide (c.ty = RustType.vec3)
  | RustValue.vec4V _ _ _ _ =>
    decide (c.sql_type = SqlType.blob true) && decide (c.ty = RustType.vec4)
  | _ => false

/-- Per-column round trip: a faithful field value converts successfully on
the write path and the read path recovers exactly that value. -/
theorem col_roundtrip (c : ColumnDefinition) (v : RustValue)
    (h : colFaithful c v = true) :
    ∃ s, to_sql v = ToSqlOutcome.ok s ∧ readColumn c s = ReadOutcome.val v := by
  cases v <;> simp only [colFaithful, Bool.and_eq_true, decide_eq_true_eq] at h <;>
    try exact absurd h (by decide)
  case u8V n =>
    obtain ⟨h1, h2⟩ := h
    norm_num at h2
    refine ⟨SqlValue.integer (n : Int), rfl, ?_⟩
    simp [readColumn, h1, readColumnAux, readUnsigned, wrapNN, h2]
  case u16V n =>
    obtain ⟨h1, h2⟩ := h
    norm_num at h2
    refine ⟨SqlValue.integer (n : Int), rfl, ?_⟩
    simp [readColumn, h1, readColumnAux, readUnsigned, wrapNN, h2]
  case u32V n =>
    obtain ⟨h1, h2⟩ := h
    norm_num at h2
    refine ⟨SqlValue.integer (n : Int), rfl, ?_⟩
    simp [readColumn, h1, readColumnAux, readUnsigned, wrapNN, h2]
  case u64V n =>
    obtain ⟨h1, h2⟩ := h
    have hcast : u64AsI64 n = (n : Int) := by
      simp only [u64AsI64]
      rw [Nat.mod_eq_of_lt (lt_trans h2 (by norm_num))]
      rw [if_pos h2]
    refine ⟨SqlValue.integer (u64AsI64 n), rfl, ?_⟩
    rw [hcast]
    simp [readColumn, h1, readColumnAux, readU64, wrapNN]
  case i8V k =>
    obtain ⟨h1, h2⟩ := h
    norm_num at h2
    refine ⟨SqlValue.integer k, rfl, ?_⟩
    simp [readColumn, h1, readColumnAux, readSigned, wrapNN, h2.1, h2.2]
  case i16V k =>
    obtain ⟨h1, h2⟩ := h
    norm_num at h2
    refine ⟨SqlValue.integer k, rfl, ?_⟩
    simp [readColumn, h1, readColumnAux, readSigned, wrapNN, h2.1, h2.2]
  case i32V k =>
    obtain ⟨h1, h2⟩ := h
    norm_num at h2
    refine ⟨SqlValue.integer k, rfl, ?_⟩
    simp [readColumn, h1, readColumnAux, readSigned, wrapNN, h2.1, h2.2]
  case i64V k =>
    refine ⟨SqlValue.integer k, rfl, ?_⟩
    simp [readColumn, h, readColumnAux, readI64, wrapNN]
  case f32V q =>
    refine ⟨SqlValue.real q, rfl, ?_⟩
    simp [readColumn, h, readColumnAux, readFloat, wrapNN]
  case f64V q =>
    refine ⟨SqlValue.real q, rfl, ?_⟩
    simp [readColumn, h, readColumnAux, readFloat, wrapNN]
  case stringV s =>
    refine ⟨SqlValue.text s, rfl, ?_⟩
    simp [readColumn, h, readColumnAux, wrapNN]
  case vec2V x y =>
    obtain ⟨h1, h2⟩ := h
    refine ⟨SqlValue.blobV (Blob.bVec2 x y), rfl, ?_⟩
    simp [readColumn, h1, h2, readColumnAux, wrapNN]
  case vec3V x y z =>
    obtain ⟨h1, h2⟩ := h
    refine ⟨SqlValue.blobV (Blob.bVec3 x y z), rfl, ?_⟩
    simp [readColumn, h1, h2, readColumnAux, wrapNN]
  case vec4V x y z w =>
    obtain ⟨h1, h2⟩ := h
    refine ⟨SqlValue.blobV (Blob.bVec4 x y z w), rfl, ?_⟩
    simp [readColumn, h1, h2, readColumnAux, wrapNN]

/-- The value a faithful instance carries for a column (proof scaffolding:
under the hypotheses of the round-trip theorem the lookup always succeeds,
so the fallback is never reached). -/
def theVal (inst : Instance) (c : ColumnDefinition) : RustValue :=
  match lookupField inst c.rust_name with
  | some v => v
  | Option.none => RustValue.stringV ""

/-- The storage value the write path produces for a column (same scaffolding
remark as theVal). -/
def theSql (inst : Instance) (c : ColumnDefinition) : SqlValue :=
  match to_sql (theVal inst c) with
  | ToSqlOutcome.ok s => s
  | ToSqlOutcome.aborted _ => SqlValue.integer 0

/-- A column is faithfully populated by an instance: the instance carries a
value for the column's source field and that value round-trips on this
column. -/
def colInstFaithful (inst : Instance) (c : ColumnDefinition) : Bool :=
  match lookupField inst c.rust_name with
  | some v => colFaithful c v
  | Option.none => false

/-- A fallible map over a list succeeds elementwise iff it succeeds as a
whole with the pointwise results. -/
theorem optionMapM_eq_map {α β : Type} (f : α → Option β) (g : α → β) (l : List α)
    (h : ∀ a ∈ l, f a = some (g a)) : optionMapM f l = some (l.map g) := by
  induction l with
  | nil => rfl
  | cons a as ih =>
    simp only [optionMapM, List.map]
    rw [h a (List.mem_cons_self a as), ih (fun b hb => h b (List.mem_cons_of_mem a hb))]

/-- On a faithfully populated column the write path produces exactly the
storage value theSql. -/
theorem writeCell_eq (inst : Instance) (c : ColumnDefinition)
    (h : colInstFaithful inst c = true) :
    (match lookupField inst c.rust_name with
     | some v =>
       match to_sql v with
       | ToSqlOutcome.ok s => some (c.sql_name, s)
       | ToSqlOutcome.aborted _ => Option.none
     | Option.none => Option.none) = some (c.sql_name, theSql inst c) := by
  unfold colInstFaithful at h
  cases hl : lookupField inst c.rust_name with
  | none => rw [hl] at h; simp at h
  | some v =>
    rw [hl] at h
    obtain ⟨s, hs, _⟩ := col_roundtrip c v h
    simp [hl, hs, theSql, theVal]

/-- On a faithfully populated column the read path recovers exactly the
original field value from the stored value. -/
theorem readCell_eq (inst : Instance) (c : ColumnDefinition)
    (h : colInstFaithful inst c = true) :
    readColumn c (theSql inst c) = ReadOutcome.val (theVal inst c) := by
  unfold colInstFaithful at h
  cases hl : lookupField inst c.rust_name with
  | none => rw [hl] at h; simp at h
  | some v =>
    rw [hl] at h
    obtain ⟨s, hs, hr⟩ := col_roundtrip c v h
    simp [theSql, theVal, hl, hs, hr]

/-- The write path over a faithfully populated table produces the row of
per-column storage values. -/
theorem writeRow_eq (tbl : TableDefinition) (inst : Instance)
    (h : ∀ c ∈ nonKeyColumns tbl, colInstFaithful inst c = true) :
    writeRow tbl inst =
      some ((nonKeyColumns tbl).map (fun c => (c.sql_name, theSql inst c))) := by
  unfold writeRow
  exact optionMapM_eq_map _ _ _ (fun c hc => writeCell_eq inst c (h c hc))

/-- The staging loop over the stored row recovers the per-column original
values, provided the table lookup resolves each stored column name to its own
column definition. -/
theorem buildStaging_eq (tbl : TableDefinition) (inst : Instance)
    (cs : List ColumnDefinition)
    (hGet : ∀ c ∈ cs, tableGet tbl c.sql_name = some c)
    (hF : ∀ c ∈ cs, colInstFaithful inst c = true) :
    buildStaging tbl (cs.map (fun c => (c.sql_name, theSql inst c))) =
      some (cs.map (fun c => (c.sql_name, theVal inst c))) := by
  induction cs with
  | nil => rfl
  | cons c cs ih =>
    have h1 := hGet c (List.mem_cons_self c cs)
    have h2 := readCell_eq inst c (hF c (List.mem_cons_self c cs))
    have h3 := ih (fun d hd => hGet d (List.mem_cons_of_mem c hd))
                  (fun d hd => hF d (List.mem_cons_of_mem c hd))
    simp only [List.map, buildStaging, h1, readColumn] at h2 ⊢
    rw [h2, h3]

/-- Looking a name up in an assignment list whose head carries that name. -/
theorem lookupField_cons_eq (p : String × RustValue) (rest : Instance) (n : String)
    (h : p.1 = n) : lookupField (p :: rest) n = some p.2 := by
  simp [lookupField, List.find?_cons_of_pos, h]

/-- Looking a name up in an assignment list skips a head with another name. -/
theorem lookupField_cons_ne (p : String × RustValue) (rest : Instance) (n : String)
    (h : p.1 ≠ n) : lookupField (p :: rest) n = lookupField rest n := by
  have hb : (p.1 == n) = false := by simp [h]
  simp [lookupField, List.find?_cons_of_neg, hb]

/-- Looking a column's SQL name up in the staged assignment yields that
column's value, provided no other listed column shares the name. -/
theorem lookupStaging_eq (inst : Instance) (cs : List ColumnDefinition)
    (c : ColumnDefinition) (hc : c ∈ cs)
    (huniq : ∀ d ∈ cs, d.sql_name = c.sql_name → d = c) :
    lookupField (cs.map (fun d => (d.sql_name, theVal inst d))) c.sql_name =
      some (theVal inst c) := by
  induction cs with
  | nil => cases hc
  | cons d ds ih =>
    simp only [List.map]
    by_cases hdc : d.sql_name = c.sql_name
    · have hEq : d = c := huniq d (List.mem_cons_self d ds) hdc
      subst hEq
      exact lookupField_cons_eq _ _ _ hdc
    · have hcds : c ∈ ds := by
        cases hc with
        | head => exact absurd rfl hdc
        | tail _ hmem => exact hmem
      rw [lookupField_cons_ne _ _ _ hdc]
      exact ih hcds (fun e he hE => huniq e (List.mem_cons_of_mem d he) hE)

/-- Looking a field name up in the applied instance: when the target type
declares the field, the result is the staged value under that name when
present, else the field's default. -/
theorem lookupApply_eq (flds : List FieldDecl) (staging : List (String × RustValue))
    (n : String) (fd : FieldDecl)
    (hf : flds.find? (fun f => f.name == n) = some fd) :
    lookupField (applyStaging flds staging) n =
      some (match lookupField staging n with
            | some v => v
            | Option.none => fd.dflt) := by
  induction flds with
  | nil => simp [List.find?] at hf
  | cons g gs ih =>
    by_cases hg : g.name = n
    · have hb : (g.name == n) = true := by simp [hg]
      simp only [List.find?, hb] at hf
      have hEq : fd = g := (Option.some.inj hf).symm
      subst hEq
      simp only [applyStaging, List.map]
      rw [lookupField_cons_eq _ _ _ hg, hg]
    · have hb : (g.name == n) = false := by simp [hg]
      simp only [List.find?, hb] at hf
      simp only [applyStaging, List.map]
      rw [lookupField_cons_ne _ _ _ hg]
      exact ih hf

/-- C3 (amended): the insert-then-query round trip returns an instance equal
to the original in every non-key field, for every table and fully populated
instance whose non-key columns (i) resolve to themselves under the table's
name lookup, (ii) use the same SQL and source field name, (iii) carry a field
value of a faithfully round-tripping type — signed integers within range,
u8/u16/u32 within range, u64 below 2^63, f32/f64, String, and Vec2/Vec3/Vec4
blobs, on matching not-null columns — and (iv) are declared as fields of the
target type.  The unamended claim fails for u64 values at or above 2^63 and
for blob-typed fields outside the Vec2/Vec3/Vec4 set (see the
counterexample). -/
theorem c3_theorem (tbl : TableDefinition) (flds : List FieldDecl) (inst : Instance)
    (hGet : ∀ c ∈ nonKeyColumns tbl, tableGet tbl c.sql_name = some c)
    (hName : ∀ c ∈ nonKeyColumns tbl, c.rust_name = c.sql_name)
    (hF : ∀ c ∈ nonKeyColumns tbl, colInstFaithful inst c = true)
    (hFld : ∀ c ∈ nonKeyColumns tbl,
      ((flds.find? (fun f => f.name == c.rust_name)).isSome = true)) :
    ∃ out, roundTrip tbl flds inst = some out ∧
      ∀ c ∈ nonKeyColumns tbl,
        lookupField out c.rust_name = lookupField inst c.rust_name := by
  have hw := writeRow_eq tbl inst hF
  have hs := buildStaging_eq tbl inst (nonKeyColumns tbl) hGet hF
  refine ⟨applyStaging flds
      ((nonKeyColumns tbl).map (fun c => (c.sql_name, theVal inst c))), ?_, ?_⟩
  · simp only [roundTrip, hw, materializeRow, hs]
  · intro c hc
    obtain ⟨fd, hfd⟩ := Option.isSome_iff_exists.mp (hFld c hc)
    rw [lookupApply_eq flds _ c.rust_name fd hfd]
    have huniq : ∀ d ∈ nonKeyColumns tbl, d.sql_name = c.sql_name → d = c := by
      intro d hd hdn
      have h1 := hGet d hd
      rw [hdn] at h1
      rw [hGet c hc] at h1
      exact (Option.some.inj h1).symm
    have hst := lookupStaging_eq inst (nonKeyColumns tbl) c hc huniq
    rw [hName c hc, hst]
    have hcf := hF c hc
    unfold colInstFaithful at hcf
    cases hl : lookupField inst c.rust_name with
    | none => rw [hl] at hcf; simp at hcf
    | some v =>
      rw [hName c hc] at hl
      rw [hl]
      simp only [theVal, hName c hc, hl]

/-- Fully populated Player instance for the round-trip witness. -/
def playerInst : Instance :=
  [("id", RustValue.i32V 0), ("name", RustValue.stringV "Timo Beil"),
   ("deaths", RustValue.i32V 100), ("email", RustValue.stringV "test_3@testen.com")]

/-- Field declarations of the Player target type. -/
def playerFields : List FieldDecl :=
  [{ name := "id", ty := RustType.i32T, dflt := RustValue.i32V 0 },
   { name := "name", ty := RustType.stringT, dflt := RustValue.stringV "" },
   { name := "deaths", ty := RustType.i32T, dflt := RustValue.i32V 0 },
   { name := "email", ty := RustType.stringT, dflt := RustValue.stringV "" }]

/-- C3 witness: the amended round-trip theorem applied to the concrete Player
table and a fully populated Player instance. -/
theorem c3_witness :
    ∃ out, roundTrip playerTable playerFields playerInst = some out ∧
      ∀ c ∈ nonKeyColumns playerTable,
        lookupField out c.rust_name = lookupField playerInst c.rust_name :=
  c3_theorem playerTable playerFields playerInst
    (by decide) (by decide) (by decide) (by decide)

/-- Outcome of SqliteDatabase::execute: affected-row count, a returned error
string, or a process abort (the unwrap / todo branches). -/
inductive ExecOutcome
  | ok (n : Nat)
  | err (e : String)
  | aborted (msg : String)
  deriving DecidableEq

/-- The underlying SQL engine as the embedding sees it: whether a statement
compiles (rusqlite's prepare), and what running a compiled statement returns
(affected-row count or a driver error message). -/
structure Engine where
  compiles : String → Bool
  run : String → Except String Nat

/-- SqliteDatabase::execute, transcribed: a poisoned guard returns the
formatted error; no connection hits a todo (abort); prepare is unwrapped, so
a statement that fails to compile aborts; a run failure is returned as the
formatted driver message; success returns the affected-row count. -/
def execute (eng : Engine) (lockPoisoned : Bool) (conn : Option Unit) (q : String) :
    ExecOutcome :=
  if lockPoisoned then ExecOutcome.err "PoisonError"
  else
    match conn with
    | Option.none => ExecOutcome.aborted "not connected"
    | some _ =>
      if eng.compiles q then
        match eng.run q with
        | Except.ok n => ExecOutcome.ok n
        | Except.error e => ExecOutcome.err e
      else ExecOutcome.aborted "unwrap on a prepare error"

/-- An outcome is returned to the caller (count or error), as opposed to a
process abort. -/
def isReturned : ExecOutcome → Bool
  | ExecOutcome.ok _ => true
  | ExecOutcome.err _ => true
  | ExecOutcome.aborted _ => false

/-- An engine on which no statement compiles: the concrete malformed-query
scenario. -/
def neverCompiles : Engine :=
  { compiles := fun _ => false, run := fun _ => Except.error "no statement" }

/-- An engine on which every statement compiles and reports one affected
row. -/
def alwaysRuns : Engine :=
  { compiles := fun _ => true, run := fun _ => Except.ok 1 }

/-- C5 counterexample: on an open connection, a malformed statement that
fails to compile makes execute abort (the source unwraps the prepare
result), so the result is not a value returned to the caller — neither an
affected-row count nor an error. -/
theorem c5_counterexample :
    execute neverCompiles false (some ()) "NOT SQL;" =
      ExecOutcome.aborted "unwrap on a prepare error" ∧
    isReturned (execute neverCompiles false (some ()) "NOT SQL;") = false :=
  ⟨rfl, rfl⟩

/-- C5 (amended): for every call to execute with an open connection and a
statement that compiles, the result is returned to the caller — the
affected-row count on success, or an error carrying the driver's message on
a run failure; a statement that fails to compile aborts the process instead
of yielding a returned error. -/
theorem c5_theorem (eng : Engine) (q : String) (h : eng.compiles q = true) :
    isReturned (execute eng false (some ()) q) = true ∧
    (∀ n, eng.run q = Except.ok n → execute eng false (some ()) q = ExecOutcome.ok n) ∧
    (∀ e, eng.run q = Except.error e → execute eng false (some ()) q = ExecOutcome.err e) := by
  refine ⟨?_, ?_, ?_⟩
  · cases hr : eng.run q <;> simp [execute, h, isReturned, hr]
  · intro n hn; simp [execute, h, hn]
  · intro e he; simp [execute, h, he]

/-- C5 witness: the amended theorem applied on a compiling statement. -/
theorem c5_witness :
    isReturned (execute alwaysRuns false (some ()) "SELECT 1;") = true :=
  (c5_theorem alwaysRuns "SELECT 1;" rfl).1

/-- Error values of the underlying driver as query_scalar observes them. -/
inductive RsError
  | queryReturnedNoRows
  | other (msg : String)
  deriving DecidableEq

/-- Modelled from rusqlite's documented semantics (external crate):
Statement::query_row maps the first result row and returns the
QueryReturnedNoRows error when there is none; rows past the first are
ignored. -/
def query_row {α : Type} (rows : List α) : Except RsError α :=
  match rows with
  | [] => Except.error RsError.queryReturnedNoRows
  | r :: _ => Except.ok r

/-- Modelled from rusqlite's documented semantics (external crate):
OptionalExtension::optional converts the QueryReturnedNoRows error into a
successful absent value and passes everything else through. -/
def optional {α : Type} : Except RsError α → Except RsError (Option α)
  | Except.ok a => Except.ok (some a)
  | Except.error RsError.queryReturnedNoRows => Except.ok Option.none
  | Except.error e => Except.error e

/-- Outcome of SqliteDatabase::query_scalar: an optional scalar, a returned
driver error, or an abort (the todo branches for a poisoned guard and a
missing connection). -/
inductive ScalarOutcome (α : Type)
  | ok (v : Option α)
  | err (e : RsError)
  | aborted (msg : String)

/-- SqliteDatabase::query_scalar, transcribed: poisoned guard and missing
connection hit todo branches; a prepare failure is returned as the error;
otherwise the statement's rows (each already converted to the scalar type)
go through query_row and optional. -/
def query_scalar {α : Type} (lockPoisoned : Bool) (conn : Option Unit)
    (prep : Except RsError (List α)) : ScalarOutcome α :=
  if lockPoisoned then ScalarOutcome.aborted "todo: poisoned guard"
  else
    match conn with
    | Option.none => ScalarOutcome.aborted "todo: not connected"
    | some _ =>
      match prep with
      | Except.error e => ScalarOutcome.err e
      | Except.ok rows =>
        match optional (query_row rows) with
        | Except.ok v => ScalarOutcome.ok v
        | Except.error e => ScalarOutcome.err e

/-- C7: on an open connection with a well-formed (compiling) query,
query_scalar returns the optional head of the result rows: the absent value
(not an error) on zero rows, the single row's value on one row, and the
first row's value — not an error — on several rows. -/
theorem c7_theorem {α : Type} (rows : List α) :
    query_scalar false (some ()) (Except.ok rows) = ScalarOutcome.ok rows.head? := by
  cases rows <;> rfl

/-- The accumulation loop of SqliteDatabase::insert over the table's columns:
key columns are skipped; for each remaining column the SQL name, a "?"
placeholder and the wrapped field value are collected; a missing field (the
unwrap in ValueWrapper::build) aborts. -/
def insertPartsGo (inst : Instance) :
    List ColumnDefinition → Option (List String × List String × List RustValue)
  | [] => some ([], [], [])
  | c :: cs =>
    if c.key then insertPartsGo inst cs
    else
      match lookupField inst c.rust_name with
      | Option.none => Option.none
      | some v =>
        match insertPartsGo inst cs with
        | some (ns, ps, vs) => some (c.sql_name :: ns, "?" :: ps, v :: vs)
        | Option.none => Option.none

/-- Names, placeholders and wrapped values of the INSERT statement. -/
def insertParts (tbl : TableDefinition) (inst : Instance) :
    Option (List String × List String × List RustValue) :=
  insertPartsGo inst tbl.fields

/-- The INSERT statement text built by SqliteDatabase::insert. -/
def insertQuery (tbl : TableDefinition) (ns ps : List String) : String :=
  "INSERT INTO " ++ tbl.sql_name ++ " (" ++ String.intercalate ", " ns ++
    ") VALUES (" ++ String.intercalate ", " ps ++ ");"

/-- All wrapped values convert on the write path (the bind-time to_sql calls
made while the statement executes). -/
def allBindsOk (vs : List RustValue) : Bool :=
  vs.all (fun v =>
    match to_sql v with
    | ToSqlOutcome.ok _ => true
    | ToSqlOutcome.aborted _ => false)

/-- SqliteDatabase::insert, transcribed: assert that the table name equals
the target type's short name (abort otherwise), build names, placeholders
and one wrapped value per non-key column, then execute the INSERT with the
wrapped values bound (a failing bind conversion aborts). -/
def insert (eng : Engine) (lockPoisoned : Bool) (conn : Option Unit)
    (tbl : TableDefinition) (typeShortName : String) (inst : Instance) : ExecOutcome :=
  if tbl.sql_name = typeShortName then
    match insertParts tbl inst with
    | some (ns, ps, vs) =>
      if allBindsOk vs then execute eng lockPoisoned conn (insertQuery tbl ns ps)
      else ExecOutcome.aborted "Cannot convert type"
    | Option.none => ExecOutcome.aborted "unwrap in ValueWrapper::build"
  else ExecOutcome.aborted "assert_eq failed"

/-- Shape of the collected INSERT parts: the names are exactly the non-key
columns' SQL names in field order, with one placeholder and one wrapped
value per name. -/
theorem insertPartsGo_shape (inst : Instance) (cs : List ColumnDefinition)
    (ns ps : List String) (vs : List RustValue)
    (h : insertPartsGo inst cs = some (ns, ps, vs)) :
    ns = (cs.filter (fun c => !c.key)).map (fun c => c.sql_name) ∧
    vs.length = ns.length ∧ ps.length = ns.length := by
  induction cs generalizing ns ps vs with
  | nil =>
    simp only [insertPartsGo, Option.some.injEq, Prod.mk.injEq] at h
    obtain ⟨h1, h2, h3⟩ := h
    subst h1; subst h2; subst h3
    simp
  | cons c cs ih =>
    cases hk : c.key with
    | true =>
      simp only [insertPartsGo, hk, if_true] at h
      simpa [List.filter_cons, hk] using ih ns ps vs h
    | false =>
      simp only [insertPartsGo, hk, Bool.false_eq_true, if_false] at h
      cases hl : lookupField inst c.rust_name with
      | none => rw [hl] at h; exact Option.noConfusion h
      | some v =>
        simp only [hl] at h
        cases hgo : insertPartsGo inst cs with
        | none => rw [hgo] at h; exact Option.noConfusion h
        | some triple =>
          obtain ⟨ns0, ps0, vs0⟩ := triple
          simp only [hgo, Option.some.injEq, Prod.mk.injEq] at h
          obtain ⟨h1, h2, h3⟩ := h
          subst h1; subst h2; subst h3
          obtain ⟨g1, g2, g3⟩ := ih ns0 ps0 vs0 hgo
          simp [List.filter_cons, hk, g1, g2, g3]

/-- C8: for every table and instance on which insert proceeds (the
table-name assertion passes and every field resolves), the INSERT statement
names exactly the columns whose key flag is false — every primary-key column
is excluded — with one bound value marshaler per named column, and when the
engine reports success the call returns the affected-row count. -/
theorem c8_theorem (eng : Engine) (tbl : TableDefinition) (tn : String)
    (inst : Instance) (ns ps : List String) (vs : List RustValue) (n : Nat)
    (h1 : tbl.sql_name = tn)
    (h2 : insertParts tbl inst = some (ns, ps, vs))
    (h3 : allBindsOk vs = true)
    (h4 : eng.compiles (insertQuery tbl ns ps) = true)
    (h5 : eng.run (insertQuery tbl ns ps) = Except.ok n) :
    ns = (nonKeyColumns tbl).map (fun c => c.sql_name) ∧
    vs.length = ns.length ∧
    insert eng false (some ()) tbl tn inst = ExecOutcome.ok n := by
  obtain ⟨g1, g2, _⟩ := insertPartsGo_shape inst tbl.fields ns ps vs h2
  refine ⟨by simpa [nonKeyColumns] using g1, g2, ?_⟩
  simp [insert, h1, h2, h3, execute, h4, h5]

/-- C8 witness: the theorem applied to the concrete Player table and
instance on the always-succeeding engine. -/
theorem c8_witness :
    (["name", "deaths", "email"] : List String) =
      (nonKeyColumns playerTable).map (fun c => c.sql_name) ∧
    ([RustValue.stringV "Timo Beil", RustValue.i32V 100,
      RustValue.stringV "test_3@testen.com"] : List RustValue).length =
      (["name", "deaths", "email"] : List String).length ∧
    insert alwaysRuns false (some ()) playerTable "Player" playerInst =
      ExecOutcome.ok 1 :=
  c8_theorem alwaysRuns playerTable "Player" playerInst
    ["name", "deaths", "email"] ["?", "?", "?"]
    [RustValue.stringV "Timo Beil", RustValue.i32V 100,
     RustValue.stringV "test_3@testen.com"] 1
    rfl (by decide) (by decide) rfl rfl

/-- Outcome of SqliteDatabase::create_table. -/
inductive CreateOutcome
  | ok
  | err (e : String)
  | aborted (msg : String)
  deriving DecidableEq

/-- SqliteDatabase::create_table, transcribed, paired with the list of DDL
statements submitted to the engine: when the table already exists it logs
and returns success without generating or executing anything; otherwise the
generated DDL is executed (a panicking generator branch aborts first). -/
def create_table (eng : Engine) (lockPoisoned : Bool) (conn : Option Unit)
    (tbl : TableDefinition) (tblExists : Bool) : CreateOutcome × List String :=
  if tblExists then (CreateOutcome.ok, [])
  else
    match get_table_sql tbl with
    | Option.none => (CreateOutcome.aborted "todo in get_table_sql", [])
    | some sql =>
      match execute eng lockPoisoned conn sql with
      | ExecOutcome.ok _ => (CreateOutcome.ok, [sql])
      | ExecOutcome.err e => (CreateOutcome.err e, [sql])
      | ExecOutcome.aborted m => (CreateOutcome.aborted m, [sql])

/-- C9: when the table already exists create_table returns success and
submits no DDL statement at all, leaving the stored schema unchanged; only
when the table does not exist is the generated DDL (and nothing else)
executed. -/
theorem c9_theorem (eng : Engine) (lp : Bool) (conn : Option Unit)
    (tbl : TableDefinition) :
    create_table eng lp conn tbl true = (CreateOutcome.ok, []) ∧
    (create_table eng lp conn tbl false).2 =
      (match get_table_sql tbl with
       | some sql => [sql]
       | Option.none => []) := by
  constructor
  · rfl
  · cases hg : get_table_sql tbl with
    | none => simp [create_table, hg]
    | some sql => cases he : execute eng lp conn sql <;> simp [create_table, hg, he]

/-- SqliteDatabase::open, transcribed: when the guard acquisition fails
(poisoned mutex) the whole `if let Ok` block is skipped and the function
falls through to Ok(()), leaving the stored connection untouched; otherwise
a successful connect installs the connection and a failed connect returns
the error with the previous state unchanged. -/
def openDb (lockPoisoned : Bool) (connectOk : Bool) (conn : Option Unit) :
    Except String Unit × Option Unit :=
  if lockPoisoned then (Except.ok (), conn)
  else if connectOk then (Except.ok (), some ())
  else (Except.error "Could not open database connection", conn)

/-- C10: when acquiring the connection guard fails, open returns Ok without
installing any connection, so on a closed database the caller observes a
successful open while the connection stays absent, and a subsequent execute
still finds no connection (and aborts in its todo branch). -/
theorem c10_theorem (connectOk : Bool) (eng : Engine) (q : String) :
    openDb true connectOk Option.none = (Except.ok (), Option.none) ∧
    execute eng false ((openDb true connectOk Option.none).2) q =
      ExecOutcome.aborted "not connected" := by
  exact ⟨rfl, rfl⟩

end BevyErmSqlite
